import Mathlib

/-!
Verification of the cross-cluster network test tool.

This file gives a shallow embedding, in Lean, of the core algorithms of the
repository and proves (or refutes) the specified properties about them:

* utils/network.py      : remap_ip, ip_to_bin, bin_to_ip, cidr_to_bin
* tests/execution.py    : the test-matrix builder and the execution engine
* tests/context.py      : the TestManager setup/teardown context manager
* resources/base.py     : delete semantics (404 tolerated, other errors raised)
* output.py             : create_results_map and the result-cell renderer

IPv4 addresses are modelled as natural numbers below 2^32; the Python code
converts them to 32-character binary strings, which we model as lists of
booleans (most significant bit first).  Fallible dictionary indexing
(Python KeyError) is modelled with Except.
-/

/-- Big-endian bit list of width w of a natural number: models
Python bin(n)[2:].zfill(w) restricted to the w low-order bits. -/
def toBitsBE : Nat → Nat → List Bool
  | 0, _ => []
  | w + 1, n => decide (n / 2 ^ w % 2 = 1) :: toBitsBE w n

/-- Numeric value of a big-endian bit list: models Python int(s, 2). -/
def fromBitsBE : List Bool → Nat
  | [] => 0
  | b :: bs => (if b then 1 else 0) * 2 ^ bs.length + fromBitsBE bs

theorem toBitsBE_length (w n : Nat) : (toBitsBE w n).length = w := by
  induction w generalizing n with
  | zero => rfl
  | succ w ih => simp [toBitsBE, ih]

theorem fromBitsBE_lt (bs : List Bool) : fromBitsBE bs < 2 ^ bs.length := by
  induction bs with
  | nil => simp [fromBitsBE]
  | cons b rest ih =>
    simp only [fromBitsBE, List.length_cons, pow_succ]
    have hb : (if b then 1 else 0) ≤ 1 := by cases b <;> simp
    nlinarith [ih]

theorem toBitsBE_mod (w n : Nat) : toBitsBE w (n % 2 ^ w) = toBitsBE w n := by
  induction w generalizing n with
  | zero => rfl
  | succ w ih =>
    have hdvd : (2 : Nat) ^ w ∣ 2 ^ (w + 1) := pow_dvd_pow 2 (Nat.le_succ w)
    have hhead : n % 2 ^ (w + 1) / 2 ^ w % 2 = n / 2 ^ w % 2 := by
      have h1 : n % 2 ^ (w + 1) / 2 ^ w = n / 2 ^ w % 2 := by
        rw [pow_succ] at *
        rw [Nat.mod_mul_right_div_self]
      rw [h1, Nat.mod_mod_of_dvd _ (dvd_refl 2)]
    have htail : toBitsBE w (n % 2 ^ (w + 1)) = toBitsBE w n := by
      rw [← ih (n % 2 ^ (w + 1)), Nat.mod_mod_of_dvd _ hdvd, ih]
    simp [toBitsBE, hhead, htail]

theorem toBitsBE_fromBitsBE (bs : List Bool) :
    toBitsBE bs.length (fromBitsBE bs) = bs := by
  induction bs with
  | nil => rfl
  | cons b rest ih =>
    have hlt := fromBitsBE_lt rest
    have hpos : 0 < 2 ^ rest.length := Nat.pos_pow_of_pos _ (by norm_num)
    have hdiv : fromBitsBE (b :: rest) / 2 ^ rest.length = (if b then 1 else 0) := by
      simp only [fromBitsBE]
      rw [mul_comm, Nat.mul_add_div hpos, Nat.div_eq_of_lt hlt, Nat.add_zero]
    have hmod : fromBitsBE (b :: rest) % 2 ^ rest.length = fromBitsBE rest := by
      simp only [fromBitsBE]
      rw [mul_comm, Nat.mul_add_mod, Nat.mod_eq_of_lt hlt]
    have h1 : decide (fromBitsBE (b :: rest) / 2 ^ rest.length % 2 = 1) = b := by
      rw [hdiv]; cases b <;> simp
    have h2 : toBitsBE rest.length (fromBitsBE (b :: rest)) = rest := by
      rw [← toBitsBE_mod rest.length, hmod, ih]
    simp only [List.length_cons, toBitsBE]
    rw [h1, h2]

theorem fromBitsBE_toBitsBE (w n : Nat) (h : n < 2 ^ w) :
    fromBitsBE (toBitsBE w n) = n := by
  induction w generalizing n with
  | zero =>
    simp [toBitsBE, fromBitsBE]
    omega
  | succ w ih =>
    have hmod : fromBitsBE (toBitsBE w n) = n % 2 ^ w := by
      rw [← toBitsBE_mod w n, ih (n % 2 ^ w) (Nat.mod_lt _ (Nat.pos_pow_of_pos _ (by norm_num)))]
    have hdivlt : n / 2 ^ w < 2 := by
      rw [Nat.div_lt_iff_lt_mul (Nat.pos_pow_of_pos _ (by norm_num))]
      rw [pow_succ] at h
      omega
    have hbit : (if decide (n / 2 ^ w % 2 = 1) then 1 else 0) = n / 2 ^ w := by
      have : n / 2 ^ w % 2 = n / 2 ^ w := Nat.mod_eq_of_lt hdivlt
      by_cases hx : n / 2 ^ w % 2 = 1 <;> simp [hx] <;> omega
    simp only [toBitsBE, fromBitsBE, toBitsBE_length, hmod, hbit]
    exact Nat.div_add_mod' n (2 ^ w)

/-! ## utils/network.py -/

/-- The network address of a CIDR whose (possibly nonzero) host bits are
cleared: models ip_network(cidr, strict=False).network_address for a CIDR
written as addr/L. -/
def netAddr (addr L : Nat) : Nat :=
  addr / 2 ^ (32 - L) * 2 ^ (32 - L)

/-- ip_to_bin from utils/network.py: 32-bit big-endian representation. -/
def ip_to_bin (ip : Nat) : List Bool := toBitsBE 32 ip

/-- bin_to_ip from utils/network.py. -/
def bin_to_ip (bs : List Bool) : Nat := fromBitsBE bs

/-- cidr_to_bin from utils/network.py: the leading prefixlen bits of the
network address of the CIDR (host bits cleared by ip_network strict=False). -/
def cidr_to_bin (addr L : Nat) : List Bool :=
  (toBitsBE 32 (netAddr addr L)).take L

/-- remap_ip from utils/network.py: the CIDR prefix bits followed by the
remaining bits of the original address. -/
def remap_ip (original_ip addr L : Nat) : Nat :=
  bin_to_ip (cidr_to_bin addr L ++ (ip_to_bin original_ip).drop (cidr_to_bin addr L).length)

theorem cidr_to_bin_length (addr L : Nat) (hL : L ≤ 32) :
    (cidr_to_bin addr L).length = L := by
  rw [cidr_to_bin, List.length_take, toBitsBE_length]
  omega

theorem remap_ip_as_bits (a addr L : Nat) :
    remap_ip a addr L
      = fromBitsBE (cidr_to_bin addr L ++ (toBitsBE 32 a).drop (cidr_to_bin addr L).length) := by
  rfl

theorem toBitsBE_remap_ip (a addr L : Nat) (hL : L ≤ 32) :
    toBitsBE 32 (remap_ip a addr L)
      = cidr_to_bin addr L ++ (toBitsBE 32 a).drop L := by
  have hP := cidr_to_bin_length addr L hL
  have hlen : (cidr_to_bin addr L ++ (toBitsBE 32 a).drop (cidr_to_bin addr L).length).length = 32 := by
    rw [List.length_append, List.length_drop, toBitsBE_length, hP]
    omega
  have hkey := toBitsBE_fromBitsBE (cidr_to_bin addr L ++ (toBitsBE 32 a).drop (cidr_to_bin addr L).length)
  rw [hlen] at hkey
  rw [remap_ip_as_bits, hkey, hP]

theorem netAddr_lt (addr L : Nat) (haddr : addr < 2 ^ 32) : netAddr addr L < 2 ^ 32 :=
  Nat.lt_of_le_of_lt (Nat.div_mul_le_self addr _) haddr

theorem netAddr_idem (addr L : Nat) : netAddr (netAddr addr L) L = netAddr addr L := by
  unfold netAddr
  rw [Nat.mul_div_cancel _ (Nat.pos_pow_of_pos _ (by norm_num))]

/-- C1: for a valid address a and CIDR addr/L, remap_ip returns the address
whose leading L bits are the leading L bits of the CIDR network address and
whose trailing 32 - L bits are the trailing bits of a; with L = 0 it returns
a unchanged and with L = 32 it returns the network address exactly. -/
theorem remap_ip_spec (a addr L : Nat)
    (ha : a < 2 ^ 32) (haddr : addr < 2 ^ 32) (hL : L ≤ 32) :
    (toBitsBE 32 (remap_ip a addr L)).take L = (toBitsBE 32 (netAddr addr L)).take L ∧
    (toBitsBE 32 (remap_ip a addr L)).drop L = (toBitsBE 32 a).drop L ∧
    (L = 0 → remap_ip a addr L = a) ∧
    (L = 32 → remap_ip a addr L = netAddr addr L) := by
  have hP := cidr_to_bin_length addr L hL
  have hbits := toBitsBE_remap_ip a addr L hL
  refine ⟨?_, ?_, ?_, ?_⟩
  · rw [hbits, List.take_left' hP, cidr_to_bin]
  · rw [hbits, List.drop_left' hP]
  · intro h0
    subst h0
    have : cidr_to_bin addr 0 = [] := by
      simp [cidr_to_bin]
    rw [remap_ip_as_bits, this]
    simp only [List.nil_append, List.length_nil, List.drop_zero]
    exact fromBitsBE_toBitsBE 32 a ha
  · intro h32
    subst h32
    have hfull : cidr_to_bin addr 32 = toBitsBE 32 (netAddr addr 32) := by
      rw [cidr_to_bin, List.take_of_length_le (by rw [toBitsBE_length])]
    rw [remap_ip_as_bits, hfull]
    have hdrop : (toBitsBE 32 a).drop (toBitsBE 32 (netAddr addr 32)).length = [] := by
      rw [toBitsBE_length, List.drop_eq_nil_iff, toBitsBE_length]
    rw [hdrop, List.append_nil]
    exact fromBitsBE_toBitsBE 32 _ (netAddr_lt addr 32 haddr)

/-- Witness for C1 at the scenario from the specification: remapping
10.2.0.5 into 10.1.0.0/16 gives 10.1.0.5 (addresses written numerically). -/
theorem remap_ip_spec_witness :
    (167903237 < 2 ^ 32 ∧ 167837696 < 2 ^ 32 ∧ 16 ≤ 32) ∧
    remap_ip 167903237 167837696 16 = 167837701 ∧
    (toBitsBE 32 (remap_ip 167903237 167837696 16)).take 16
      = (toBitsBE 32 (netAddr 167837696 16)).take 16 :=
  ⟨by norm_num, by decide,
    (remap_ip_spec 167903237 167837696 16 (by norm_num) (by norm_num) (by norm_num)).1⟩

/-- C10: remap_ip tolerates a CIDR with nonzero host bits (ip_network is
called with strict set to False, so no error is raised) and its result
depends only on the prefix length and the masked network address: remapping
against addr/L equals remapping against the host-bits-cleared netAddr addr L / L. -/
theorem remap_ip_mask_invariant (a addr L : Nat) :
    remap_ip a (netAddr addr L) L = remap_ip a addr L := by
  unfold remap_ip cidr_to_bin
  rw [netAddr_idem]

/-! ## tests/execution.py: data model and the test-matrix builder -/

/-- Probe kinds known to the test suite dictionary in tests/suite. -/
inductive TestType
  | ping
  | curl
  | nslookup
deriving DecidableEq, Repr

/-- Entity kinds from the TestEntity dataclass. -/
inductive EntityType
  | pod
  | service
  | external
deriving DecidableEq, Repr

/-- TestEntity from tests/execution.py.  The Python field named namespace is
called nspace here because namespace is a Lean keyword.  Addresses are the
numeric value of the dotted-quad string. -/
structure TestEntity where
  name : String
  nspace : String
  type : EntityType
  ip : Nat
  test_suite : List TestType
  color : Option String := none
  cluster_name : Option String := none
deriving DecidableEq, Repr

/-- Test from tests/execution.py (the flat record the engine builds). -/
structure Test where
  test_type : TestType
  src_ip : Nat
  dst_ip : Nat
  src_name : String
  src_namespace : String
  dst_name : String
  dst_cluster_name : Option String
  dst_hostname : String
  kubeconfig_location : String
  result : Option Bool := none
deriving DecidableEq, Repr

/-- A parsed CIDR string: numeric address and prefix length. -/
abbrev Cidr := Nat × Nat

/-- The per-source-cluster remap table built on entry to run_tests:
cluster name to (peer cluster name to CIDR). -/
abbrev RemapTable := List (String × List (String × Cidr))

/-- Association-list lookup with string keys (Python dict read access). -/
def dget {α : Type} [DecidableEq α] {β : Type} : List (α × β) → α → Option β
  | [], _ => none
  | (k, v) :: rest, q => if k = q then some v else dget rest q

/-- Python d[k] with a str key: raises KeyError when the key is absent. -/
def pyGetS {β : Type} (d : List (String × β)) (k : String) : Except String β :=
  match dget d k with
  | some v => Except.ok v
  | none => Except.error ("KeyError: " ++ k)

/-- Python d[k] where the key expression has type str or None: indexing a
string-keyed dict with None raises KeyError. -/
def pyGet {β : Type} (d : List (String × β)) (k : Option String) : Except String β :=
  match k with
  | none => Except.error "KeyError: None"
  | some s => pyGetS d s

/-- The target-address computation of run_tests (lines 125-134): keep the
destination address unless the destination names a cluster different from
the source cluster, in which case look the CIDR up in the remap table
(raising KeyError if absent) and remap. -/
def target_ip_calc (rc : RemapTable) (source destination : TestEntity) : Except String Nat :=
  match destination.cluster_name with
  | none => Except.ok destination.ip
  | some dc =>
    if source.cluster_name = some dc then Except.ok destination.ip
    else do
      let inner ← pyGet rc source.cluster_name
      let cidr ← pyGetS inner dc
      Except.ok (remap_ip destination.ip cidr.1 cidr.2)

/-- The Test record appended for one probe kind of the destination suite
(the constructor call at lines 138-153 of tests/execution.py). -/
def mkTest (source destination : TestEntity) (tip : Nat) (kcfg : String)
    (tt : TestType) : Test :=
  { test_type := tt
    src_ip := source.ip
    dst_ip := tip
    src_name := source.name
    src_namespace := source.nspace
    dst_name := destination.name
    dst_cluster_name := destination.cluster_name
    dst_hostname := "p" ++ destination.name.drop 1
    kubeconfig_location := kcfg
    result := none }

/-- The inner loop over the destination test suite: one Test appended per
probe kind, with the kubeconfig dict indexed while building each Test (a
KeyError there aborts, as in the source). -/
def emitTests (kc : List (String × String)) (source destination : TestEntity)
    (tip : Nat) : List TestType → Except String (List Test)
  | [] => Except.ok []
  | tt :: rest => do
    let kcfg ← pyGet kc source.cluster_name
    let ts ← emitTests kc source destination tip rest
    Except.ok (mkTest source destination tip kcfg tt :: ts)

/-- One iteration of the nested pairing loop of run_tests (lines 112-153):
skip self (same name), skip cross-cluster services, compute the effective
address, then emit one Test per probe kind of the destination suite. -/
def processPair (rc : RemapTable) (kc : List (String × String))
    (source destination : TestEntity) : Except String (List Test) :=
  if source.name = destination.name then Except.ok []
  else if destination.type = EntityType.service ∧ source.cluster_name ≠ destination.cluster_name then
    Except.ok []
  else do
    let tip ← target_ip_calc rc source destination
    emitTests kc source destination tip destination.test_suite

/-- The full pairing phase of run_tests: every (source, destination) pair of
the cross product, in order, accumulating emitted tests; a KeyError aborts
the build as in Python. -/
def buildTests (rc : RemapTable) (kc : List (String × String))
    (sources destinations : List TestEntity) : Except String (List Test) :=
  (sources.flatMap (fun s => destinations.map (fun d => (s, d)))).foldlM
    (fun acc sd => do
      let ts ← processPair rc kc sd.1 sd.2
      Except.ok (acc ++ ts)) []

/-- One unit of the execution phase: run the probe for a test; a raised
probe exception is caught at the unit boundary and leaves the result
unwritten (the Python engine prints it and carries on). -/
def applyProbe (probe : Test → Except String Bool) (t : Test) : Test :=
  match probe t with
  | Except.ok b => { t with result := some b }
  | Except.error _ => t

/-- The thread-pool phase of run_tests (lines 155-168): every unit is
submitted and awaited; exceptions are caught per future; the same test list
is returned.  Units are independent, so the bounded-parallel execution is
modelled by its per-unit effect on each element. -/
def runAll (probe : Test → Except String Bool) (tests : List Test) : List Test :=
  tests.map (applyProbe probe)

/-- run_tests from tests/execution.py: build the matrix, then execute every
test, returning the list with results written. -/
def run_tests (rc : RemapTable) (kc : List (String × String))
    (sources destinations : List TestEntity)
    (probe : Test → Except String Bool) : Except String (List Test) :=
  (buildTests rc kc sources destinations).map (runAll probe)

/-! ## Concrete fixtures for counterexamples and witnesses -/

/-- A source pod p1 in cluster A (address 10.0.0.5). -/
def podA : TestEntity :=
  { name := "p1", nspace := "default", type := EntityType.pod, ip := 167772165
    test_suite := [TestType.ping, TestType.curl], cluster_name := some "A" }

/-- A destination pod p2 in cluster B (address 10.2.0.5). -/
def podB : TestEntity :=
  { name := "p2", nspace := "default", type := EntityType.pod, ip := 167903237
    test_suite := [TestType.ping], cluster_name := some "B" }

/-- A pod in cluster B that shares the bare name p1 with podA while having a
different identity triple (different cluster). -/
def podSameName : TestEntity :=
  { name := "p1", nspace := "default", type := EntityType.pod, ip := 167903237
    test_suite := [TestType.ping, TestType.curl], cluster_name := some "B" }

/-- A service in cluster B. -/
def svcB : TestEntity :=
  { name := "s2", nspace := "default", type := EntityType.service, ip := 167969029
    test_suite := [TestType.curl], cluster_name := some "B" }

/-- Remap table in which cluster A has no entry for cluster B. -/
def rcNoEntry : RemapTable :=
  [("A", []), ("B", [("A", (167772160, 16))])]

/-- Remap table with entries in both directions (A reaches B via
10.1.0.0/16, B reaches A via 10.0.0.0/16). -/
def rcFull : RemapTable :=
  [("A", [("B", (167837696, 16))]), ("B", [("A", (167772160, 16))])]

/-- Kubeconfig locations per cluster. -/
def kcAB : List (String × String) :=
  [("A", "kubeconfig-a"), ("B", "kubeconfig-b")]

/-! ## C8: no cross-cluster service tests -/

/-- C8: for every source and every service destination whose cluster differs
from the source cluster, the pairing loop emits zero Tests for the pair, for
every probe kind (the pair is skipped before the suite loop runs). -/
theorem service_cross_cluster_no_tests (rc : RemapTable) (kc : List (String × String))
    (source destination : TestEntity)
    (hsvc : destination.type = EntityType.service)
    (hcl : source.cluster_name ≠ destination.cluster_name) :
    processPair rc kc source destination = Except.ok [] := by
  unfold processPair
  by_cases hname : source.name = destination.name
  · rw [if_pos hname]
  · rw [if_neg hname, if_pos ⟨hsvc, hcl⟩]

/-- Witness for C8: the pod p1 of cluster A against the service s2 of
cluster B yields no Test. -/
theorem service_cross_cluster_no_tests_witness :
    (svcB.type = EntityType.service ∧ podA.cluster_name ≠ svcB.cluster_name) ∧
    processPair rcFull kcAB podA svcB = Except.ok [] :=
  ⟨⟨by decide, by decide⟩,
    service_cross_cluster_no_tests rcFull kcAB podA svcB (by decide) (by decide)⟩

/-! ## C2: a missing remap entry raises, it does not skip -/

/-- C2 counterexample: with a remap table in which cluster A has no entry
for cluster B, building the matrix for the cross-cluster pod pair
(p1 of A, p2 of B) does not silently exclude the pair: it fails with a
KeyError, so the claim that the build cannot fail is false. -/
theorem missing_remap_entry_fails :
    buildTests rcNoEntry kcAB [podA] [podB] = Except.error "KeyError: B" := by
  rfl

/-- C2 amended: for a cross-cluster pair that is not skipped by the name or
service rules, a destination cluster absent from the source row of the remap
table makes the pairing loop raise KeyError (aborting the build); no Test is
emitted but the build fails rather than skipping. -/
theorem missing_remap_entry_keyerror (rc : RemapTable) (kc : List (String × String))
    (source destination : TestEntity) (sc dc : String) (inner : List (String × Cidr))
    (hname : source.name ≠ destination.name)
    (hsvc : ¬(destination.type = EntityType.service ∧ source.cluster_name ≠ destination.cluster_name))
    (hdc : destination.cluster_name = some dc)
    (hsc : source.cluster_name = some sc)
    (hdiff : sc ≠ dc)
    (hinner : dget rc sc = some inner)
    (hmiss : dget inner dc = none) :
    processPair rc kc source destination = Except.error ("KeyError: " ++ dc) := by
  unfold processPair
  rw [if_neg hname, if_neg hsvc]
  unfold target_ip_calc
  rw [hdc, hsc]
  simp [pyGet, pyGetS, hinner, hmiss, hdiff, Bind.bind, Except.bind]

/-- Witness for the amended C2 at the concrete fixtures. -/
theorem missing_remap_entry_keyerror_witness :
    (podA.name ≠ podB.name ∧ dget rcNoEntry "A" = some [] ∧
      (dget ([] : List (String × Cidr)) "B" = none)) ∧
    processPair rcNoEntry kcAB podA podB = Except.error "KeyError: B" :=
  ⟨⟨by decide, by rfl, by rfl⟩,
    missing_remap_entry_keyerror rcNoEntry kcAB podA podB "A" "B" []
      (by decide) (by decide) (by rfl) (by rfl) (by decide) (by rfl) (by rfl)⟩

/-! ## C3: pair eligibility and one Test per probe kind -/

/-- C3 counterexample: the self-test skip compares bare names only.  The
pods podA (cluster A, namespace default, name p1) and podSameName (cluster
B, namespace default, name p1) have different identity triples and satisfy
every eligibility condition (pods, remap entry present), yet the builder
emits zero Tests instead of one per probe kind of the destination suite. -/
theorem same_name_cross_cluster_skipped :
    buildTests rcFull kcAB [podA] [podSameName] = Except.ok [] ∧
    (podA.cluster_name, podA.nspace, podA.name)
      ≠ (podSameName.cluster_name, podSameName.nspace, podSameName.name) ∧
    podSameName.test_suite = [TestType.ping, TestType.curl] := by
  refine ⟨by rfl, by decide, by rfl⟩

/-- C3 amended: for every pair whose bare names differ (the code skips on
name equality, not on identity-triple equality), that is not a cross-cluster
service pair, and whose address and kubeconfig lookups succeed, the builder
emits exactly one Test per probe kind listed in the destination suite, in
suite order. -/
theorem eligible_pair_emits_per_kind (rc : RemapTable) (kc : List (String × String))
    (source destination : TestEntity) (tip : Nat) (kcfg : String)
    (hname : source.name ≠ destination.name)
    (hsvc : ¬(destination.type = EntityType.service ∧ source.cluster_name ≠ destination.cluster_name))
    (htip : target_ip_calc rc source destination = Except.ok tip)
    (hkc : pyGet kc source.cluster_name = Except.ok kcfg) :
    processPair rc kc source destination
      = Except.ok (destination.test_suite.map (mkTest source destination tip kcfg)) := by
  have hemit : ∀ l : List TestType,
      emitTests kc source destination tip l
        = Except.ok (l.map (mkTest source destination tip kcfg)) := by
    intro l
    induction l with
    | nil => rfl
    | cons tt rest ih => simp [emitTests, hkc, ih, Bind.bind, Except.bind]
  unfold processPair
  rw [if_neg hname, if_neg hsvc]
  simp [htip, hemit, Bind.bind, Except.bind]

/-- Witness for the amended C3: pod p1 of cluster A against pod p2 of
cluster B, with the remap entry 10.1.0.0/16 present, emits exactly one Test
for the single probe kind of the destination suite, with the destination
address remapped to 10.1.0.5. -/
theorem eligible_pair_emits_per_kind_witness :
    (podA.name ≠ podB.name ∧
      target_ip_calc rcFull podA podB = Except.ok 167837701 ∧
      pyGet kcAB podA.cluster_name = Except.ok "kubeconfig-a") ∧
    processPair rcFull kcAB podA podB
      = Except.ok (podB.test_suite.map (mkTest podA podB 167837701 "kubeconfig-a")) :=
  ⟨⟨by decide, by rfl, by rfl⟩,
    eligible_pair_emits_per_kind rcFull kcAB podA podB 167837701 "kubeconfig-a"
      (by decide) (by decide) (by rfl) (by rfl)⟩

/-! ## C5: the engine returns one entry per generated test -/

/-- C5: run_tests returns a list of exactly the generated tests with every
unit attempted: whatever the probe outcome (including a raised error on any
subset of units), the returned list has the same length as the generated
test list, and the unit at each position is the probe applied to the
generated test at that position, so no raised probe prevents a sibling from
being attempted. -/
theorem run_tests_all_attempted (rc : RemapTable) (kc : List (String × String))
    (sources destinations : List TestEntity) (probe : Test → Except String Bool) :
    ((run_tests rc kc sources destinations probe).map List.length
      = (buildTests rc kc sources destinations).map List.length) ∧
    (∀ (tests : List Test) (i : Nat),
      (runAll probe tests).length = tests.length ∧
      (runAll probe tests)[i]? = (tests[i]?).map (applyProbe probe)) := by
  constructor
  · cases h : buildTests rc kc sources destinations with
    | ok ts => simp [run_tests, h, Except.map, runAll]
    | error e => simp [run_tests, h, Except.map]
  · intro tests i
    exact ⟨by simp [runAll], by simp [runAll]⟩

/-! ## tests/context.py: TestManager setup/teardown semantics

A resource is abstracted by how its create call behaves and how its delete
call behaves (resources/base.py CustomResource.delete and
resources/kubernetes.py NetworkPolicyResource.delete: a 404 ApiException is
swallowed when exception_on_not_found is False — the TestManager always
calls delete() with that default — and any other ApiException is re-raised).
Python context-manager semantics: if a create inside enter raises, the exit
hook is never invoked; if the body raises, exit runs and the body exception
propagates unless exit itself raises. -/

/-- Behavior of a resource delete call. -/
inductive DeleteBehavior
  | delOk
  | delNotFound
  | delApiError
deriving DecidableEq, Repr

/-- A managed resource, abstracted to its create and delete behavior. -/
structure ResourceModel where
  createOk : Bool
  delBehavior : DeleteBehavior
deriving DecidableEq, Repr

/-- The create loop of TestManager enter: resources are created in order
until the first failing create; it returns which resources reached active
and whether the whole setup succeeded. -/
def enterPhase : List ResourceModel → List Bool × Bool
  | [] => ([], true)
  | r :: rs =>
    if r.createOk then
      let p := enterPhase rs
      (true :: p.1, p.2)
    else
      (false :: rs.map (fun _ => false), false)

/-- The delete loop of TestManager exit: resources are deleted in order;
a not-found outcome is swallowed (exception_on_not_found defaults to False)
and the loop continues; any other ApiException propagates out of the loop
immediately, so later resources get no delete call.  Returns the number of
delete invocations per resource and the propagated error, if any. -/
def exitPhase : List ResourceModel → List Nat × Option String
  | [] => ([], none)
  | r :: rs =>
    match r.delBehavior with
    | DeleteBehavior.delApiError => (1 :: rs.map (fun _ => 0), some "ApiException")
    | _ =>
      let p := exitPhase rs
      (1 :: p.1, p.2)

/-- Observable outcome of one with-TestManager block. -/
structure RunOutcome where
  activated : List Bool
  deleteCounts : List Nat
  raised : Option String
deriving DecidableEq, Repr

/-- Semantics of: with TestManager(name, resources): body.  bodyRaises
states whether the protected block raises.  If a create raises during enter,
Python never calls exit, so no deletes happen at all. -/
def withTestManager (resources : List ResourceModel) (bodyRaises : Bool) : RunOutcome :=
  let e := enterPhase resources
  if e.2 then
    let d := exitPhase resources
    { activated := e.1
      deleteCounts := d.1
      raised :=
        match d.2 with
        | some err => some err
        | none => if bodyRaises then some "BodyError" else none }
  else
    { activated := e.1
      deleteCounts := resources.map (fun _ => 0)
      raised := some "CreateError" }

theorem enterPhase_all_ok (resources : List ResourceModel)
    (h : ∀ r ∈ resources, r.createOk = true) :
    enterPhase resources = (resources.map (fun _ => true), true) := by
  induction resources with
  | nil => rfl
  | cons r rs ih =>
    have hr : r.createOk = true := h r (List.mem_cons_self r rs)
    have hrest := ih (fun x hx => h x (List.mem_cons_of_mem r hx))
    simp [enterPhase, hr, hrest]

theorem exitPhase_no_error (resources : List ResourceModel)
    (h : ∀ r ∈ resources, r.delBehavior ≠ DeleteBehavior.delApiError) :
    exitPhase resources = (resources.map (fun _ => 1), none) := by
  induction resources with
  | nil => rfl
  | cons r rs ih =>
    have hr := h r (List.mem_cons_self r rs)
    have hrest := ih (fun x hx => h x (List.mem_cons_of_mem r hx))
    cases hb : r.delBehavior with
    | delApiError => exact absurd hb hr
    | delOk => simp [exitPhase, hb, hrest]
    | delNotFound => simp [exitPhase, hb, hrest]

/-! ## C4: teardown coverage of activated resources -/

/-- C4 counterexample: with two resources whose first create succeeds and
whose second create fails, the first resource reaches active but the
teardown never runs (Python skips exit when enter raises), so its delete
count is 0, not 1 — the create-failure exit path of the claim is false. -/
theorem create_failure_skips_teardown :
    (withTestManager
      [⟨true, DeleteBehavior.delOk⟩, ⟨false, DeleteBehavior.delOk⟩] false).activated
      = [true, false] ∧
    (withTestManager
      [⟨true, DeleteBehavior.delOk⟩, ⟨false, DeleteBehavior.delOk⟩] false).deleteCounts
      = [0, 0] := by
  refine ⟨by rfl, by rfl⟩

/-- C4 amended: when every create succeeds (so every resource reaches
active) and no delete itself raises a non-404 error, every resource has
delete invoked exactly once before the block finishes, on normal completion
and on an exception raised during the probe phase alike; but when a create
fails during setup the exit hook is skipped and no delete is invoked. -/
theorem teardown_after_body (resources : List ResourceModel) (bodyRaises : Bool)
    (hcreate : ∀ r ∈ resources, r.createOk = true)
    (hdel : ∀ r ∈ resources, r.delBehavior ≠ DeleteBehavior.delApiError) :
    (withTestManager resources bodyRaises).activated = resources.map (fun _ => true) ∧
    (withTestManager resources bodyRaises).deleteCounts = resources.map (fun _ => 1) := by
  unfold withTestManager
  rw [enterPhase_all_ok resources hcreate, exitPhase_no_error resources hdel]
  exact ⟨rfl, rfl⟩

/-- Witness for the amended C4, on the exception exit path. -/
theorem teardown_after_body_witness :
    ((∀ r ∈ [(⟨true, DeleteBehavior.delOk⟩ : ResourceModel),
        ⟨true, DeleteBehavior.delNotFound⟩], r.createOk = true) ∧
      (∀ r ∈ [(⟨true, DeleteBehavior.delOk⟩ : ResourceModel),
        ⟨true, DeleteBehavior.delNotFound⟩], r.delBehavior ≠ DeleteBehavior.delApiError)) ∧
    (withTestManager [⟨true, DeleteBehavior.delOk⟩, ⟨true, DeleteBehavior.delNotFound⟩]
        true).deleteCounts = [1, 1] :=
  ⟨⟨by decide, by decide⟩,
    (teardown_after_body
      [⟨true, DeleteBehavior.delOk⟩, ⟨true, DeleteBehavior.delNotFound⟩] true
      (by decide) (by decide)).2⟩

/-! ## C7: a failing delete aborts the remaining deletions -/

/-- C7 counterexample: two active resources; deleting the first raises a
non-404 ApiException.  The error is surfaced, but the second resource never
has delete invoked (count 0), refuting the claim that deletion continues
for the remaining resources. -/
theorem delete_error_blocks_remaining :
    (withTestManager
      [⟨true, DeleteBehavior.delApiError⟩, ⟨true, DeleteBehavior.delOk⟩] false).deleteCounts
      = [1, 0] ∧
    (withTestManager
      [⟨true, DeleteBehavior.delApiError⟩, ⟨true, DeleteBehavior.delOk⟩] false).raised
      = some "ApiException" := by
  refine ⟨by rfl, by rfl⟩

theorem exitPhase_append_error (pre post : List ResourceModel) (bad : ResourceModel)
    (hpre : ∀ r ∈ pre, r.delBehavior ≠ DeleteBehavior.delApiError)
    (hbad : bad.delBehavior = DeleteBehavior.delApiError) :
    exitPhase (pre ++ bad :: post)
      = (pre.map (fun _ => 1) ++ 1 :: post.map (fun _ => 0), some "ApiException") := by
  induction pre with
  | nil => simp [exitPhase, hbad]
  | cons r rs ih =>
    have hr := hpre r (List.mem_cons_self r rs)
    have hrest := ih (fun x hx => hpre x (List.mem_cons_of_mem r hx))
    cases hb : r.delBehavior with
    | delApiError => exact absurd hb hr
    | delOk => simp [exitPhase, hb, hrest]
    | delNotFound => simp [exitPhase, hb, hrest]

/-- C7 amended: during teardown, a delete failing with an error other than
not-found is surfaced out of the block, but it aborts the loop: the failing
resource is the last one whose delete is invoked, and every resource after
it in the batch gets no delete call (not-found deletes before it are
swallowed and do continue the loop). -/
theorem delete_error_aborts_teardown (pre post : List ResourceModel)
    (bad : ResourceModel) (bodyRaises : Bool)
    (hcreate : ∀ r ∈ pre ++ bad :: post, r.createOk = true)
    (hpre : ∀ r ∈ pre, r.delBehavior ≠ DeleteBehavior.delApiError)
    (hbad : bad.delBehavior = DeleteBehavior.delApiError) :
    (withTestManager (pre ++ bad :: post) bodyRaises).deleteCounts
      = pre.map (fun _ => 1) ++ 1 :: post.map (fun _ => 0) ∧
    (withTestManager (pre ++ bad :: post) bodyRaises).raised = some "ApiException" := by
  unfold withTestManager
  rw [enterPhase_all_ok _ hcreate, exitPhase_append_error pre post bad hpre hbad]
  exact ⟨rfl, rfl⟩

/-- Witness for the amended C7: a not-found delete, then a failing delete,
then a healthy resource; only the first two see a delete call. -/
theorem delete_error_aborts_teardown_witness :
    ((∀ r ∈ [(⟨true, DeleteBehavior.delNotFound⟩ : ResourceModel)],
        r.delBehavior ≠ DeleteBehavior.delApiError) ∧
      (⟨true, DeleteBehavior.delApiError⟩ : ResourceModel).delBehavior
        = DeleteBehavior.delApiError) ∧
    (withTestManager
      [⟨true, DeleteBehavior.delNotFound⟩, ⟨true, DeleteBehavior.delApiError⟩,
        ⟨true, DeleteBehavior.delOk⟩] false).deleteCounts = [1, 1, 0] :=
  ⟨⟨by decide, by rfl⟩,
    (delete_error_aborts_teardown
      [⟨true, DeleteBehavior.delNotFound⟩] [⟨true, DeleteBehavior.delOk⟩]
      ⟨true, DeleteBehavior.delApiError⟩ false
      (by decide) (by decide) (by rfl)).1⟩

/-! ## output.py: create_results_map

create_results_map reads test.src and test.dst, i.e. the nested Test model
of tests/types.py (probe kind, source entity, destination entity,
kubeconfig, result) — not the flat Test record that tests/execution.py
builds.  Both are modelled; the aggregation is over the nested model.
Python dicts are modelled as insertion-ordered association lists. -/

/-- TestEntity from tests/types.py. -/
structure AggEntity where
  type : EntityType
  test_suite : List TestType
  ip : Nat
  name : String
  nspace : String
  cluster_name : Option String
deriving DecidableEq, Repr

/-- Test from tests/types.py: the record shape create_results_map reads. -/
structure AggTest where
  test_type : TestType
  src : AggEntity
  dst : AggEntity
  kubeconfig_location : String
  result : Option Bool := none
deriving DecidableEq, Repr

/-- Python d[q] = v on an association-list dict (update in place, append
new keys at the end, preserving insertion order). -/
def dset {α : Type} [DecidableEq α] {β : Type} : List (α × β) → α → β → List (α × β)
  | [], q, v => [(q, v)]
  | (k, w) :: rest, q, v => if k = q then (k, v) :: rest else (k, w) :: dset rest q v

/-- The Python pattern: if q not in d, d[q] = dflt; then replace d[q] by
f applied to it (deeper mutation of the nested dict). -/
def upsert {α : Type} [DecidableEq α] {β : Type} :
    List (α × β) → α → β → (β → β) → List (α × β)
  | [], q, dflt, f => [(q, f dflt)]
  | (k, w) :: rest, q, dflt, f =>
    if k = q then (k, f w) :: rest else (k, w) :: upsert rest q dflt f

theorem dget_dset_self {α : Type} [DecidableEq α] {β : Type}
    (d : List (α × β)) (q : α) (v : β) : dget (dset d q v) q = some v := by
  induction d with
  | nil => simp [dset, dget]
  | cons kv rest ih =>
    obtain ⟨k, w⟩ := kv
    by_cases h : k = q
    · simp [dset, dget, h]
    · simp [dset, dget, h, ih]

theorem dget_dset_ne {α : Type} [DecidableEq α] {β : Type}
    (d : List (α × β)) (q k : α) (v : β) (h : k ≠ q) :
    dget (dset d q v) k = dget d k := by
  induction d with
  | nil => simp [dset, dget, Ne.symm h]
  | cons kv rest ih =>
    obtain ⟨k2, w⟩ := kv
    by_cases h2 : k2 = q
    · subst h2
      simp [dset, dget, Ne.symm h]
    · simp only [dset, if_neg h2]
      by_cases h3 : k2 = k
      · simp [dget, h3]
      · simp [dget, h3, ih]

theorem dget_upsert_self {α : Type} [DecidableEq α] {β : Type}
    (d : List (α × β)) (q : α) (dflt : β) (f : β → β) :
    dget (upsert d q dflt f) q = some (f ((dget d q).getD dflt)) := by
  induction d with
  | nil => simp [upsert, dget]
  | cons kv rest ih =>
    obtain ⟨k, w⟩ := kv
    by_cases h : k = q
    · simp [upsert, dget, h]
    · simp [upsert, dget, h, ih]

theorem dget_upsert_ne {α : Type} [DecidableEq α] {β : Type}
    (d : List (α × β)) (q k : α) (dflt : β) (f : β → β) (h : k ≠ q) :
    dget (upsert d q dflt f) k = dget d k := by
  induction d with
  | nil => simp [upsert, dget, Ne.symm h]
  | cons kv rest ih =>
    obtain ⟨k2, w⟩ := kv
    by_cases h2 : k2 = q
    · subst h2
      simp [upsert, dget, Ne.symm h]
    · simp only [upsert, if_neg h2]
      by_cases h3 : k2 = k
      · simp [dget, h3]
      · simp [dget, h3, ih]

/-- probe kind to stored result. -/
abbrev TTMap := List (TestType × Option Bool)
/-- destination name level. -/
abbrev DstNameMap := List (String × TTMap)
/-- destination namespace level. -/
abbrev DstNsMap := List (String × DstNameMap)
/-- destination cluster level (None is a legal Python dict key). -/
abbrev DstClusterMap := List (Option String × DstNsMap)
/-- source name level. -/
abbrev SrcNameMap := List (String × DstClusterMap)
/-- source namespace level. -/
abbrev SrcNsMap := List (String × SrcNameMap)
/-- top level: source cluster. -/
abbrev ResultsMap := List (Option String × SrcNsMap)

/-- Innermost write: results[...][dst_name][test_type] = result. -/
def ins7 (t : AggTest) (d : TTMap) : TTMap := dset d t.test_type t.result

def ins6 (t : AggTest) (d : DstNameMap) : DstNameMap := upsert d t.dst.name [] (ins7 t)

def ins5 (t : AggTest) (d : DstNsMap) : DstNsMap := upsert d t.dst.nspace [] (ins6 t)

def ins4 (t : AggTest) (d : DstClusterMap) : DstClusterMap :=
  upsert d t.dst.cluster_name [] (ins5 t)

def ins3 (t : AggTest) (d : SrcNameMap) : SrcNameMap := upsert d t.src.name [] (ins4 t)

def ins2 (t : AggTest) (d : SrcNsMap) : SrcNsMap := upsert d t.src.nspace [] (ins3 t)

/-- The loop body of create_results_map: auto-vivify the six outer levels,
then assign the result at the probe-kind key. -/
def insertTest (m : ResultsMap) (t : AggTest) : ResultsMap :=
  upsert m t.src.cluster_name [] (ins2 t)

/-- create_results_map from output.py: fold the flat list into the nested
dict, later tests overwriting earlier ones at identical key paths. -/
def create_results_map (tests : List AggTest) : ResultsMap :=
  tests.foldl insertTest []

def look6 (k6 : String) (k7 : TestType) (d : DstNameMap) : Option (Option Bool) :=
  (dget d k6).bind (fun d7 => dget d7 k7)

def look5 (k5 k6 : String) (k7 : TestType) (d : DstNsMap) : Option (Option Bool) :=
  (dget d k5).bind (look6 k6 k7)

def look4 (k4 : Option String) (k5 k6 : String) (k7 : TestType) (d : DstClusterMap) :
    Option (Option Bool) :=
  (dget d k4).bind (look5 k5 k6 k7)

def look3 (k3 : String) (k4 : Option String) (k5 k6 : String) (k7 : TestType)
    (d : SrcNameMap) : Option (Option Bool) :=
  (dget d k3).bind (look4 k4 k5 k6 k7)

def look2 (k2 k3 : String) (k4 : Option String) (k5 k6 : String) (k7 : TestType)
    (d : SrcNsMap) : Option (Option Bool) :=
  (dget d k2).bind (look3 k3 k4 k5 k6 k7)

/-- Indexing the nested structure, in order, by source cluster, source
namespace, source name, destination cluster, destination namespace,
destination name and probe kind. -/
def lookupResult (m : ResultsMap) (k1 : Option String) (k2 k3 : String)
    (k4 : Option String) (k5 k6 : String) (k7 : TestType) : Option (Option Bool) :=
  (dget m k1).bind (look2 k2 k3 k4 k5 k6 k7)

/-- A full key path into the nested results structure. -/
structure TestKey where
  k1 : Option String
  k2 : String
  k3 : String
  k4 : Option String
  k5 : String
  k6 : String
  k7 : TestType
deriving DecidableEq, Repr

/-- The full key path a test is stored under. -/
def testKey (t : AggTest) : TestKey :=
  ⟨t.src.cluster_name, t.src.nspace, t.src.name,
    t.dst.cluster_name, t.dst.nspace, t.dst.name, t.test_type⟩

theorem lookSelf6 (t : AggTest) (d : DstNameMap) :
    look6 t.dst.name t.test_type (ins6 t d) = some t.result := by
  unfold look6 ins6
  rw [dget_upsert_self]
  simp [ins7, dget_dset_self]

theorem lookSelf5 (t : AggTest) (d : DstNsMap) :
    look5 t.dst.nspace t.dst.name t.test_type (ins5 t d) = some t.result := by
  unfold look5 ins5
  rw [dget_upsert_self]
  simp [lookSelf6 t]

theorem lookSelf4 (t : AggTest) (d : DstClusterMap) :
    look4 t.dst.cluster_name t.dst.nspace t.dst.name t.test_type (ins4 t d) = some t.result := by
  unfold look4 ins4
  rw [dget_upsert_self]
  simp [lookSelf5 t]

theorem lookSelf3 (t : AggTest) (d : SrcNameMap) :
    look3 t.src.name t.dst.cluster_name t.dst.nspace t.dst.name t.test_type (ins3 t d)
      = some t.result := by
  unfold look3 ins3
  rw [dget_upsert_self]
  simp [lookSelf4 t]

theorem lookSelf2 (t : AggTest) (d : SrcNsMap) :
    look2 t.src.nspace t.src.name t.dst.cluster_name t.dst.nspace t.dst.name
      t.test_type (ins2 t d) = some t.result := by
  unfold look2 ins2
  rw [dget_upsert_self]
  simp [lookSelf3 t]

theorem lookup_insertTest_self (m : ResultsMap) (t : AggTest) :
    lookupResult (insertTest m t) t.src.cluster_name t.src.nspace t.src.name
      t.dst.cluster_name t.dst.nspace t.dst.name t.test_type = some t.result := by
  unfold lookupResult insertTest
  rw [dget_upsert_self]
  simp [lookSelf2 t]

theorem lookNe6 (t : AggTest) (k6 : String) (k7 : TestType)
    (h : k6 ≠ t.dst.name ∨ k7 ≠ t.test_type) (d : DstNameMap) :
    look6 k6 k7 (ins6 t d) = look6 k6 k7 d := by
  by_cases h6 : k6 = t.dst.name
  · have h7 : k7 ≠ t.test_type := by
      rcases h with h | h
      · exact absurd h6 h
      · exact h
    subst h6
    unfold look6 ins6
    rw [dget_upsert_self, Option.some_bind]
    unfold ins7
    rw [dget_dset_ne _ _ _ _ h7]
    cases hd : dget d t.dst.name with
    | none => rfl
    | some x => rfl
  · unfold look6 ins6
    rw [dget_upsert_ne _ _ _ _ _ h6]

theorem lookNe5 (t : AggTest) (k5 k6 : String) (k7 : TestType)
    (h : k5 ≠ t.dst.nspace ∨ (k6 ≠ t.dst.name ∨ k7 ≠ t.test_type)) (d : DstNsMap) :
    look5 k5 k6 k7 (ins5 t d) = look5 k5 k6 k7 d := by
  by_cases h5 : k5 = t.dst.nspace
  · have hrest : k6 ≠ t.dst.name ∨ k7 ≠ t.test_type := by
      rcases h with h | h
      · exact absurd h5 h
      · exact h
    subst h5
    unfold look5 ins5
    rw [dget_upsert_self, Option.some_bind, lookNe6 t k6 k7 hrest]
    cases hd : dget d t.dst.nspace with
    | none => rfl
    | some x => rfl
  · unfold look5 ins5
    rw [dget_upsert_ne _ _ _ _ _ h5]

theorem lookNe4 (t : AggTest) (k4 : Option String) (k5 k6 : String) (k7 : TestType)
    (h : k4 ≠ t.dst.cluster_name ∨ (k5 ≠ t.dst.nspace ∨ (k6 ≠ t.dst.name ∨ k7 ≠ t.test_type)))
    (d : DstClusterMap) :
    look4 k4 k5 k6 k7 (ins4 t d) = look4 k4 k5 k6 k7 d := by
  by_cases h4 : k4 = t.dst.cluster_name
  · have hrest : k5 ≠ t.dst.nspace ∨ (k6 ≠ t.dst.name ∨ k7 ≠ t.test_type) := by
      rcases h with h | h
      · exact absurd h4 h
      · exact h
    subst h4
    unfold look4 ins4
    rw [dget_upsert_self, Option.some_bind, lookNe5 t k5 k6 k7 hrest]
    cases hd : dget d t.dst.cluster_name with
    | none => rfl
    | some x => rfl
  · unfold look4 ins4
    rw [dget_upsert_ne _ _ _ _ _ h4]

theorem lookNe3 (t : AggTest) (k3 : String) (k4 : Option String) (k5 k6 : String)
    (k7 : TestType)
    (h : k3 ≠ t.src.name ∨ (k4 ≠ t.dst.cluster_name ∨ (k5 ≠ t.dst.nspace ∨
      (k6 ≠ t.dst.name ∨ k7 ≠ t.test_type))))
    (d : SrcNameMap) :
    look3 k3 k4 k5 k6 k7 (ins3 t d) = look3 k3 k4 k5 k6 k7 d := by
  by_cases h3 : k3 = t.src.name
  · have hrest : k4 ≠ t.dst.cluster_name ∨ (k5 ≠ t.dst.nspace ∨
        (k6 ≠ t.dst.name ∨ k7 ≠ t.test_type)) := by
      rcases h with h | h
      · exact absurd h3 h
      · exact h
    subst h3
    unfold look3 ins3
    rw [dget_upsert_self, Option.some_bind, lookNe4 t k4 k5 k6 k7 hrest]
    cases hd : dget d t.src.name with
    | none => rfl
    | some x => rfl
  · unfold look3 ins3
    rw [dget_upsert_ne _ _ _ _ _ h3]

theorem lookNe2 (t : AggTest) (k2 k3 : String) (k4 : Option String) (k5 k6 : String)
    (k7 : TestType)
    (h : k2 ≠ t.src.nspace ∨ (k3 ≠ t.src.name ∨ (k4 ≠ t.dst.cluster_name ∨
      (k5 ≠ t.dst.nspace ∨ (k6 ≠ t.dst.name ∨ k7 ≠ t.test_type)))))
    (d : SrcNsMap) :
    look2 k2 k3 k4 k5 k6 k7 (ins2 t d) = look2 k2 k3 k4 k5 k6 k7 d := by
  by_cases h2 : k2 = t.src.nspace
  · have hrest : k3 ≠ t.src.name ∨ (k4 ≠ t.dst.cluster_name ∨ (k5 ≠ t.dst.nspace ∨
        (k6 ≠ t.dst.name ∨ k7 ≠ t.test_type))) := by
      rcases h with h | h
      · exact absurd h2 h
      · exact h
    subst h2
    unfold look2 ins2
    rw [dget_upsert_self, Option.some_bind, lookNe3 t k3 k4 k5 k6 k7 hrest]
    cases hd : dget d t.src.nspace with
    | none => rfl
    | some x => rfl
  · unfold look2 ins2
    rw [dget_upsert_ne _ _ _ _ _ h2]

theorem lookup_insertTest_ne (m : ResultsMap) (t : AggTest) (k1 : Option String)
    (k2 k3 : String) (k4 : Option String) (k5 k6 : String) (k7 : TestType)
    (h : (⟨k1, k2, k3, k4, k5, k6, k7⟩ : TestKey) ≠ testKey t) :
    lookupResult (insertTest m t) k1 k2 k3 k4 k5 k6 k7
      = lookupResult m k1 k2 k3 k4 k5 k6 k7 := by
  have hd : k1 ≠ t.src.cluster_name ∨ (k2 ≠ t.src.nspace ∨ (k3 ≠ t.src.name ∨
      (k4 ≠ t.dst.cluster_name ∨ (k5 ≠ t.dst.nspace ∨
        (k6 ≠ t.dst.name ∨ k7 ≠ t.test_type))))) := by
    by_contra hcon
    push_neg at hcon
    exact h (by simp [testKey, hcon.1, hcon.2.1, hcon.2.2.1, hcon.2.2.2.1,
      hcon.2.2.2.2.1, hcon.2.2.2.2.2.1, hcon.2.2.2.2.2.2])
  by_cases h1 : k1 = t.src.cluster_name
  · have hrest : k2 ≠ t.src.nspace ∨ (k3 ≠ t.src.name ∨ (k4 ≠ t.dst.cluster_name ∨
        (k5 ≠ t.dst.nspace ∨ (k6 ≠ t.dst.name ∨ k7 ≠ t.test_type)))) := by
      rcases hd with h0 | h0
      · exact absurd h1 h0
      · exact h0
    subst h1
    unfold lookupResult insertTest
    rw [dget_upsert_self, Option.some_bind, lookNe2 t k2 k3 k4 k5 k6 k7 hrest]
    cases hm : dget m t.src.cluster_name with
    | none => rfl
    | some x => rfl
  · unfold lookupResult insertTest
    rw [dget_upsert_ne _ _ _ _ _ h1]

theorem lookup_foldl_ne (ts : List AggTest) (m : ResultsMap) (k1 : Option String)
    (k2 k3 : String) (k4 : Option String) (k5 k6 : String) (k7 : TestType)
    (h : ∀ u ∈ ts, (⟨k1, k2, k3, k4, k5, k6, k7⟩ : TestKey) ≠ testKey u) :
    lookupResult (ts.foldl insertTest m) k1 k2 k3 k4 k5 k6 k7
      = lookupResult m k1 k2 k3 k4 k5 k6 k7 := by
  induction ts generalizing m with
  | nil => rfl
  | cons u us ih =>
    simp only [List.foldl_cons]
    rw [ih (insertTest m u) (fun x hx => h x (List.mem_cons_of_mem u hx))]
    exact lookup_insertTest_ne m u k1 k2 k3 k4 k5 k6 k7 (h u (List.mem_cons_self u us))

theorem lookup_foldl_mem (ts : List AggTest) (m : ResultsMap)
    (hnodup : (ts.map testKey).Nodup) (t : AggTest) (ht : t ∈ ts) :
    lookupResult (ts.foldl insertTest m) t.src.cluster_name t.src.nspace t.src.name
      t.dst.cluster_name t.dst.nspace t.dst.name t.test_type = some t.result := by
  induction ts generalizing m with
  | nil => cases ht
  | cons u us ih =>
    simp only [List.map_cons, List.nodup_cons] at hnodup
    rcases List.mem_cons.mp ht with rfl | hmem
    · simp only [List.foldl_cons]
      rw [lookup_foldl_ne us (insertTest m t) _ _ _ _ _ _ _
        (fun x hx heq => hnodup.1 (by
          rw [show testKey t = testKey x from heq]
          exact List.mem_map_of_mem testKey hx))]
      exact lookup_insertTest_self m t
    · simp only [List.foldl_cons]
      exact ih (insertTest m u) hnodup.2 hmem

/-- C6: when the aggregator is given records of the nested Test model it
actually dereferences (tests/types.py, with src and dst entities) whose key
paths are pairwise distinct, create_results_map succeeds and indexing the
returned nested mapping, in order, by source cluster, source namespace,
source name, destination cluster, destination namespace, destination name
and probe kind yields that test's stored result.  Note: the flat Test
records built by tests/execution.py run_tests carry no src or dst
attribute, so the Python call on the engine's own output raises
AttributeError instead. -/
theorem create_results_map_spec (tests : List AggTest)
    (hnodup : (tests.map testKey).Nodup) :
    ∀ t ∈ tests,
      lookupResult (create_results_map tests) t.src.cluster_name t.src.nspace
        t.src.name t.dst.cluster_name t.dst.nspace t.dst.name t.test_type
        = some t.result :=
  fun t ht => lookup_foldl_mem tests [] hnodup t ht

/-- Source entity for the aggregation witness (nested model). -/
def aggSrc : AggEntity :=
  { type := EntityType.pod, test_suite := [TestType.ping, TestType.curl]
    ip := 167772165, name := "p1", nspace := "default", cluster_name := some "A" }

/-- Destination entity for the aggregation witness (nested model). -/
def aggDst : AggEntity :=
  { type := EntityType.pod, test_suite := [TestType.ping, TestType.curl]
    ip := 167903237, name := "p2", nspace := "default", cluster_name := some "B" }

/-- A completed ping test, result true. -/
def aggT1 : AggTest :=
  { test_type := TestType.ping, src := aggSrc, dst := aggDst
    kubeconfig_location := "kubeconfig-a", result := some true }

/-- A completed curl test, result false. -/
def aggT2 : AggTest :=
  { test_type := TestType.curl, src := aggSrc, dst := aggDst
    kubeconfig_location := "kubeconfig-a", result := some false }

/-- Witness for C6 on a concrete two-test list with distinct key paths. -/
theorem create_results_map_spec_witness :
    (([aggT1, aggT2].map testKey).Nodup ∧ aggT1 ∈ [aggT1, aggT2]) ∧
    lookupResult (create_results_map [aggT1, aggT2]) (some "A") "default" "p1"
      (some "B") "default" "p2" TestType.ping = some (some true) :=
  ⟨⟨by decide, by decide⟩,
    create_results_map_spec [aggT1, aggT2] (by decide) aggT1 (by decide)⟩

/-! ## output.py: result-cell rendering -/

/-- get_single_result_cell from output.py: green Y on true, red N on false,
three blank spaces when the probe kind is absent or was not attempted.  The
escape sequences are the exact ANSI codes of the source. -/
def get_single_result_cell (result : Option Bool) : String :=
  match result with
  | some true => "\x1b[42m Y \x1b[0m"
  | some false => "\x1b[41m N \x1b[0m"
  | none => "   "

/-- Python test_results.get(key): None both when the key is absent and when
the stored value is None. -/
def tt_get (m : TTMap) (tt : TestType) : Option Bool :=
  match dget m tt with
  | some v => v
  | none => none

/-- get_result_cell from output.py: empty string on a falsy (missing or
empty) entry, otherwise the concatenation of the per-kind indicators in the
constant declared order ping then curl. -/
def get_result_cell (test_results : Option TTMap) : String :=
  match test_results with
  | none => ""
  | some m =>
    if m = [] then ""
    else get_single_result_cell (tt_get m TestType.ping)
      ++ get_single_result_cell (tt_get m TestType.curl)

/-- Count the visible characters of a character stream; the boolean flag
records whether the scan is inside an ANSI escape sequence (entered at ESC,
left after the terminating character m). -/
def visibleLenAux : Bool → List Char → Nat
  | _, [] => 0
  | true, c :: rest =>
    if c = 'm' then visibleLenAux false rest else visibleLenAux true rest
  | false, c :: rest =>
    if c = '\x1b' then visibleLenAux true rest else 1 + visibleLenAux false rest

/-- The number of visible characters of a string: characters outside ANSI
escape sequences. -/
def visibleLen (l : List Char) : Nat := visibleLenAux false l

/-- Display width of a rendered cell: its visible characters. -/
def displayWidth (s : String) : Nat := visibleLen s.data

/-- C9: a present (nonempty) results entry renders as the concatenation of
one indicator per probe kind in the single constant declared order ping then
curl; every per-kind indicator — positive, negative, or the blank
placeholder for an absent/not-attempted kind — has display width 3 (the
ANSI color escapes are zero-width), so every present cell has display
width 6 regardless of which probe kinds apply. -/
theorem result_cell_layout (m : TTMap) (hm : m ≠ []) :
    get_result_cell (some m)
      = get_single_result_cell (tt_get m TestType.ping)
        ++ get_single_result_cell (tt_get m TestType.curl) ∧
    (∀ r : Option Bool, displayWidth (get_single_result_cell r) = 3) ∧
    displayWidth (get_result_cell (some m)) = 6 := by
  have hcell : get_result_cell (some m)
      = get_single_result_cell (tt_get m TestType.ping)
        ++ get_single_result_cell (tt_get m TestType.curl) := by
    simp only [get_result_cell, if_neg hm]
  have hwidth : ∀ r₁ r₂ : Option Bool,
      displayWidth (get_single_result_cell r₁ ++ get_single_result_cell r₂) = 6 := by
    decide
  refine ⟨hcell, by decide, ?_⟩
  rw [hcell]
  exact hwidth (tt_get m TestType.ping) (tt_get m TestType.curl)

/-- Witness for C9 at a concrete entry holding only a ping result. -/
theorem result_cell_layout_witness :
    (([(TestType.ping, some true)] : TTMap) ≠ []) ∧
    get_result_cell (some [(TestType.ping, some true)])
      = get_single_result_cell (some true) ++ get_single_result_cell none ∧
    displayWidth (get_result_cell (some [(TestType.ping, some true)])) = 6 :=
  ⟨by decide,
    (result_cell_layout [(TestType.ping, some true)] (by decide)).1,
    (result_cell_layout [(TestType.ping, some true)] (by decide)).2.2⟩
